import Mathlib

/-!
Verification development for the ai-devops log-analysis service.

The Go source is embedded shallowly:

* Go strings are `List Char` (`GoStr`); byte-level length becomes list
  length (the inputs of interest are ASCII).
* `float64` confidence scores become `ℚ`: the rule table only holds the
  exactly ordered values 0.85, 0.9, 0.95 against a threshold such as 0.8,
  so rational comparison mirrors the float comparison.
* A compiled secret-masking regular expression (`*regexp.Regexp`) is
  abstracted as a `SecretPat`: the three operations the sanitizer calls on
  it (`MatchString`, `ReplaceAllStringFunc`, `FindAllString` count)
  together with the regexp contract that a string without a match is
  returned unchanged by replacement.  One concrete default pattern
  (`(?i)(authorization:\s*)[a-zA-Z0-9_\-\.\s]+`) is implemented in full as
  `authPat`.
* The rule table's regex triggers are abstracted as predicates
  `GoStr → Bool`; `defaultRules` takes the regex-match semantics as a
  parameter `rx` applied to the verbatim pattern source strings.
* The OpenAI client's retry loop is modelled as a pure recursion over an
  attempt-indexed outcome function, recording the backoff durations (in
  seconds) of the waits it performs; the `context.Context` becomes a
  predicate saying whether the context is already done at the wait before
  a given attempt.
* `time.Time` fields (`ProcessedAt`) and logging calls are dropped: they
  carry no decision logic.
-/

namespace AIDevOps

/-- Go strings, modelled as their sequence of characters. -/
abbrev GoStr := List Char

/-- A Go string literal. -/
def gs (s : String) : GoStr := s.toList

/-! ## internal/domain/models.go -/

/-- `Severity.IsValid`: the severity is one of the three allowed values. -/
def severityIsValid (s : String) : Bool :=
  s == "Low" || s == "Medium" || s == "High"

/-- `domain.AnalysisResult`: the structured output of log analysis. -/
structure AnalysisResult where
  errorType : String
  severity : String
  rootCause : String
  suggestedActions : List String
  preventionTips : List String
  deriving DecidableEq

/-- `domain.RuleMatch`: a match from rule-based pre-classification. -/
structure RuleMatch where
  ruleID : GoStr
  confidence : ℚ
  result : AnalysisResult
  deriving DecidableEq

/-! ## internal/domain/errors.go -/

/-- `domain.AnalysisError`: an operation name, the wrapped error's message
and the retryable flag (`WrapError(op, err, retryable)`). -/
structure AnalysisError where
  op : String
  msg : String
  retryable : Bool
  deriving DecidableEq

/-- `AnalysisError.Error()`: `"op: err"` when `op` is non-empty. -/
def AnalysisError.errorString (e : AnalysisError) : String :=
  if e.op == "" then e.msg else e.op ++ ": " ++ e.msg

/-- `domain.IsRetryable` on an `*AnalysisError`. -/
def isRetryableErr (e : AnalysisError) : Bool := e.retryable

/-! ## pkg/sanitizer/sanitizer.go -/

/-- The ASCII fragment of `unicode.IsSpace`, used by `strings.TrimSpace`:
space, tab, newline, vertical tab, form feed, carriage return. -/
def unicodeIsSpace (c : Char) : Bool :=
  c == ' ' || c == '\t' || c == '\n' || c == '\x0b' || c == '\x0c' || c == '\r'

/-- `strings.TrimSpace`: drop leading and trailing whitespace. -/
def trimSpace (s : GoStr) : GoStr :=
  ((s.dropWhile unicodeIsSpace).reverse.dropWhile unicodeIsSpace).reverse

/-- The size-limit step of `Sanitizer.Sanitize`: `log = log[:maxSize]`
when `len(log) > maxSize`. -/
def goTruncate (maxSize : Nat) (s : GoStr) : GoStr :=
  if s.length > maxSize then s.take maxSize else s

/-- A compiled secret pattern, abstracted to the three operations
`Sanitizer` performs on a `*regexp.Regexp`, plus the regexp contract that
replacement leaves a string without any match unchanged. -/
structure SecretPat where
  matchStr : GoStr → Bool
  replaceAll : (GoStr → GoStr) → GoStr → GoStr
  findAllCount : GoStr → Nat
  replaceAll_id_of_no_match :
    ∀ (f : GoStr → GoStr) (s : GoStr), matchStr s = false → replaceAll f s = s

/-- `sanitizer.Sanitizer`: the compiled pattern list and the size ceiling. -/
structure Sanitizer where
  patterns : List SecretPat
  maxSize : Nat

/-- `maskValue`: the masked form of one matched secret. -/
def maskValue (m : GoStr) : GoStr :=
  if m.length ≤ 8 then gs "[REDACTED]"
  else
    match m.findIdx? (fun c => c == ':' || c == '=') with
    | some idx => m.take (idx + 1) ++ gs "[REDACTED]"
    | none =>
      if m.length > 10 then m.take 4 ++ gs "****" ++ m.drop (m.length - 4)
      else gs "[REDACTED]"

/-- `Sanitizer.maskSecrets`: fold every pattern's
`ReplaceAllStringFunc(·, maskValue)` over the log. -/
def maskSecrets (san : Sanitizer) (log : GoStr) : GoStr :=
  san.patterns.foldl (fun acc p => p.replaceAll maskValue acc) log

/-- `Sanitizer.Sanitize`: trim, enforce the size limit, mask secrets.
The Go function also returns an error value that is always `nil`. -/
def sanitize (san : Sanitizer) (log : GoStr) : GoStr :=
  maskSecrets san (goTruncate san.maxSize (trimSpace log))

/-- `Sanitizer.IsEmpty`: the log is empty or whitespace only. -/
def sanIsEmpty (log : GoStr) : Bool := trimSpace log == []

/-- `Sanitizer.IsTooLarge`. -/
def sanIsTooLarge (san : Sanitizer) (log : GoStr) : Bool :=
  san.maxSize < log.length

/-- `sanitizer.SanitizationStats`. -/
structure SanitizationStats where
  originalSize : Nat
  sanitizedSize : Nat
  truncated : Bool
  secretsFound : Nat
  deriving DecidableEq

/-- `Sanitizer.SanitizeWithStats`: the truncated flag and secret count are
computed from the raw input, then `Sanitize` produces the cleaned text. -/
def sanitizeWithStats (san : Sanitizer) (log : GoStr) :
    GoStr × SanitizationStats :=
  let found := san.patterns.foldl (fun acc p => acc + p.findAllCount log) 0
  let cleaned := sanitize san log
  (cleaned,
    { originalSize := log.length
      sanitizedSize := cleaned.length
      truncated := decide (san.maxSize < log.length)
      secretsFound := found })

/-! ## internal/rules (rules.go) -/

/-- `rules.Rule`: a rule's regex triggers are abstracted as predicates on
the log text. -/
structure Rule where
  id : GoStr
  name : String
  description : String
  patterns : List (GoStr → Bool)
  keywords : List GoStr
  confidence : ℚ
  result : AnalysisResult

/-- `Rule.Match`: lowercase the log once, check every keyword as a
case-insensitive substring, then every regex trigger. -/
def ruleMatch (r : Rule) (log : GoStr) : Bool :=
  let logLower := log.map Char.toLower
  r.keywords.any (fun kw => decide ((kw.map Char.toLower) <:+: logLower)) ||
    r.patterns.any (fun p => p log)

/-- `rules.Engine`: the rule table and the confidence threshold. -/
structure Engine where
  rules : List Rule
  confidenceThreshold : ℚ

/-- The loop body of `Engine.Analyze`: append a `RuleMatch` for every rule
that matches, in table order. -/
def engineAnalyze (log : GoStr) : List Rule → List RuleMatch
  | [] => []
  | r :: rs =>
    if ruleMatch r log then
      ⟨r.id, r.confidence, r.result⟩ :: engineAnalyze log rs
    else engineAnalyze log rs

/-- `Engine.Analyze`. -/
def Engine.analyze (e : Engine) (log : GoStr) : List RuleMatch :=
  engineAnalyze log e.rules

/-- The loop of `Engine.GetBestMatch`: keep the current best match,
replacing it only when a later match clears the threshold with strictly
higher confidence. -/
def bestLoop (t : ℚ) : Option RuleMatch → List RuleMatch → Option RuleMatch
  | best, [] => best
  | best, m :: ms =>
    if t ≤ m.confidence then
      match best with
      | none => bestLoop t (some m) ms
      | some b =>
        if b.confidence < m.confidence then bestLoop t (some m) ms
        else bestLoop t (some b) ms
    else bestLoop t best ms

/-- `Engine.GetBestMatch`: the highest-confidence match clearing the
threshold, `none` otherwise. -/
def Engine.getBestMatch (e : Engine) (ms : List RuleMatch) :
    Option RuleMatch :=
  bestLoop e.confidenceThreshold none ms

/-- `Engine.ShouldUseRuleResult`: a best match exists and clears the
threshold. -/
def Engine.shouldUseRuleResult (e : Engine) (ms : List RuleMatch) : Bool :=
  match e.getBestMatch ms with
  | some best => decide (e.confidenceThreshold ≤ best.confidence)
  | none => false

/-! ## internal/ai/client.go (validator part, `validator.go` text) -/

/-- `DefaultValidator.Validate`: `none` when the result conforms to the
schema, otherwise the first violation as a non-retryable `AnalysisError`. -/
def validate : Option AnalysisResult → Option AnalysisError
  | none => some ⟨"validate", "result is nil", false⟩
  | some r =>
    if r.errorType == "" then
      some ⟨"validate_error_type", "error_type is required", false⟩
    else if !severityIsValid r.severity then
      some ⟨"validate_severity", "severity must be Low, Medium, or High", false⟩
    else if r.rootCause == "" then
      some ⟨"validate_root_cause", "root_cause is required", false⟩
    else if r.suggestedActions.isEmpty then
      some ⟨"validate_suggested_actions",
        "at least one suggested_action is required", false⟩
    else if r.suggestedActions.any (fun a => a == "") then
      some ⟨"validate_suggested_actions", "suggested_action is empty", false⟩
    else if r.preventionTips.any (fun tp => tp == "") then
      some ⟨"validate_prevention_tips", "prevention_tip is empty", false⟩
    else none

/-! ## internal/ai/client.go (`OpenAIClient.Analyze` retry loop) -/

/-- The outcome of one `executeRequest` call. -/
inductive AIOutcome where
  | ok (r : AnalysisResult)
  | fail (e : AnalysisError)
  deriving DecidableEq

/-- `WrapError("context_cancelled", ctx.Err(), false)`. -/
def contextCancelledErr : AnalysisError :=
  ⟨"context_cancelled", "context canceled", false⟩

/-- The result of the retry loop together with the backoff durations (in
seconds) of the waits it performed, in order. -/
structure LoopRun where
  outcome : Except AnalysisError AnalysisResult
  backoffs : List Nat

/-- The retry loop of `OpenAIClient.Analyze`.  `attempt` is the loop
counter, `remaining` how many further attempts the bound
`attempt <= MaxRetries` still allows, `waited` the backoffs so far.
Before attempt `n ≥ 1` the loop waits `n²` seconds unless the context is
already done, in which case it returns the cancellation error. -/
def analyzeLoop (ctx : Nat → Bool) (exec : Nat → AIOutcome) :
    Nat → Nat → List Nat → LoopRun
  | attempt, remaining, waited =>
    match exec attempt with
    | .ok r => ⟨.ok r, waited⟩
    | .fail e =>
      if e.retryable then
        match remaining with
        | 0 => ⟨.error e, waited⟩
        | n + 1 =>
          if ctx (attempt + 1) then ⟨.error contextCancelledErr, waited⟩
          else
            analyzeLoop ctx exec (attempt + 1) n
              (waited ++ [(attempt + 1) * (attempt + 1)])
      else ⟨.error e, waited⟩

/-- `OpenAIClient.Analyze`: run the loop from attempt 0 with
`MaxRetries` retries allowed. -/
def openAIAnalyze (maxRetries : Nat) (ctx : Nat → Bool)
    (exec : Nat → AIOutcome) : LoopRun :=
  analyzeLoop ctx exec 0 maxRetries []

/-! ## internal/service (`Analyzer.Analyze`) -/

/-- `domain.AnalysisResponse` (without the `ProcessedAt` timestamp). -/
structure AnalysisResponse where
  success : Bool
  result : Option AnalysisResult
  error : String
  source : GoStr
  deriving DecidableEq

/-- `domain.ErrEmptyLog.Error()`. -/
def errEmptyLogMsg : String := "log content is empty"

/-- The failure response built from the AI error. -/
def failResp (err : AnalysisError) : AnalysisResponse :=
  ⟨false, none, err.errorString, []⟩

/-- Step 3 of `Analyzer.Analyze`: the rule-based result when
`ShouldUseRuleResult` holds, with `GetBestMatch` unfolded exactly as the
code reads it. -/
def ruleStep (eng : Engine) (sanitized : GoStr) : Option AnalysisResponse :=
  match eng.getBestMatch (engineAnalyze sanitized eng.rules) with
  | some best =>
    if eng.confidenceThreshold ≤ best.confidence then
      some ⟨true, some best.result, "", gs "rules:" ++ best.ruleID⟩
    else none
  | none => none

/-- The rule-based fallback after an AI failure: re-evaluate the rules
and, when there is at least one match and `GetBestMatch` returns one, use
it; otherwise surface the AI error. -/
def fallbackStep (eng : Engine) (sanitized : GoStr) (err : AnalysisError) :
    AnalysisResponse :=
  match engineAnalyze sanitized eng.rules with
  | [] => failResp err
  | m :: ms =>
    match eng.getBestMatch (m :: ms) with
    | some best => ⟨true, some best.result, "", gs "rules_fallback:" ++ best.ruleID⟩
    | none => failResp err

/-- `Analyzer.Analyze`: validate input, sanitize, try the rule path, then
the AI client, then the rule fallback. -/
def analyzerAnalyze (enableRules : Bool) (eng : Engine) (san : Sanitizer)
    (ai : GoStr → Except AnalysisError AnalysisResult) (log : GoStr) :
    AnalysisResponse :=
  if sanIsEmpty log then ⟨false, none, errEmptyLogMsg, []⟩
  else
    match
      (if enableRules then ruleStep eng (sanitizeWithStats san log).1 else none)
    with
    | some resp => resp
    | none =>
      match ai (sanitizeWithStats san log).1 with
      | .ok result => ⟨true, some result, "", gs "ai"⟩
      | .error err =>
        if enableRules then fallbackStep eng (sanitizeWithStats san log).1 err
        else failResp err

/-! ## cmd/server (rules table file: `DefaultRules` and the ten rules)

The regex-match semantics is a parameter `rx`: `rx pat log` stands for
`regexp.MustCompile(pat).MatchString(log)`; the pattern source strings are
verbatim from the Go file. -/

/-- `dockerBuildPermissionDenied()`. -/
def dockerBuildPermissionDenied (rx : String → GoStr → Bool) : Rule where
  id := gs "docker_build_permission"
  name := "Docker Build Permission Denied"
  description := "Detects Docker build failures due to permission issues"
  keywords := [gs "docker build", gs "permission denied"]
  patterns := [rx "(?i)docker.*build.*permission\\s+denied", rx "(?i)error.*docker.*EACCES"]
  confidence := mkRat 9 10
  result :=
    { errorType := "docker_permission_denied"
      severity := "High"
      rootCause := "Docker build failed due to insufficient permissions. This typically occurs when the user running Docker doesn't have access to required files or the Docker socket."
      suggestedActions :=
        ["Ensure the user is in the 'docker' group: sudo usermod -aG docker $USER",
         "Check file permissions in the build context",
         "If using CI/CD, ensure the runner has Docker socket access",
         "Verify Dockerfile COPY/ADD commands reference accessible files"]
      preventionTips :=
        ["Run Docker with appropriate user permissions",
         "Use multi-stage builds with proper ownership",
         "Configure CI/CD runners with Docker access"] }

/-- `dockerDaemonNotRunning()`. -/
def dockerDaemonNotRunning (rx : String → GoStr → Bool) : Rule where
  id := gs "docker_daemon_not_running"
  name := "Docker Daemon Not Running"
  description := "Detects when Docker daemon is not available"
  keywords := [gs "cannot connect to the docker daemon", gs "docker daemon is not running"]
  patterns :=
    [rx "(?i)cannot connect to the docker daemon",
     rx "(?i)is the docker daemon running",
     rx "(?i)docker\\.sock.*no such file"]
  confidence := mkRat 95 100
  result :=
    { errorType := "docker_daemon_unavailable"
      severity := "High"
      rootCause := "The Docker daemon is not running or not accessible. Docker commands require a running daemon to execute."
      suggestedActions :=
        ["Start the Docker daemon: sudo systemctl start docker",
         "Check Docker service status: sudo systemctl status docker",
         "Verify Docker installation: docker --version",
         "If using Docker Desktop, ensure the application is running"]
      preventionTips :=
        ["Enable Docker to start on boot: sudo systemctl enable docker",
         "Monitor Docker daemon health in production",
         "Use Docker healthchecks in CI/CD pipelines"] }

/-- `npmInstallFailure()`. -/
def npmInstallFailure (rx : String → GoStr → Bool) : Rule where
  id := gs "npm_install_failure"
  name := "NPM Install Failure"
  description := "Detects npm install failures"
  keywords := [gs "npm err!"]
  patterns :=
    [rx "(?i)npm ERR!.*code\\s+E[A-Z]+",
     rx "(?i)npm ERR!.*404.*not found",
     rx "(?i)npm ERR!.*peer dep"]
  confidence := mkRat 85 100
  result :=
    { errorType := "npm_install_failure"
      severity := "Medium"
      rootCause := "NPM package installation failed. This could be due to missing packages, version conflicts, network issues, or corrupted cache."
      suggestedActions :=
        ["Clear npm cache: npm cache clean --force",
         "Delete node_modules and package-lock.json, then reinstall",
         "Check if the package exists and version is correct",
         "Verify network connectivity to npm registry",
         "Check for peer dependency conflicts"]
      preventionTips :=
        ["Lock dependency versions in package-lock.json",
         "Use npm ci in CI/CD for reproducible builds",
         "Regularly update dependencies to avoid conflicts"] }

/-- `outOfMemory()`. -/
def outOfMemory (rx : String → GoStr → Bool) : Rule where
  id := gs "out_of_memory"
  name := "Out of Memory"
  description := "Detects out of memory errors"
  keywords :=
    [gs "out of memory", gs "oomkilled", gs "memory allocation failed",
     gs "heap out of memory"]
  patterns :=
    [rx "(?i)out\\s+of\\s+memory", rx "(?i)OOMKilled", rx "(?i)Cannot allocate memory",
     rx "(?i)JavaScript heap out of memory", rx "(?i)java\\.lang\\.OutOfMemoryError"]
  confidence := mkRat 95 100
  result :=
    { errorType := "out_of_memory"
      severity := "High"
      rootCause := "The process exhausted available memory and was terminated. This can be caused by memory leaks, insufficient resource limits, or processing large datasets."
      suggestedActions :=
        ["Increase memory limits for the container/process",
         "Profile the application for memory leaks",
         "Implement pagination for large data processing",
         "Check for unbounded caches or collections",
         "Review Kubernetes resource limits"]
      preventionTips :=
        ["Set appropriate memory limits based on profiling",
         "Implement memory monitoring and alerting",
         "Use streaming for large file processing",
         "Regular load testing with realistic data volumes"] }

/-- `connectionTimeout()`. -/
def connectionTimeout (rx : String → GoStr → Bool) : Rule where
  id := gs "connection_timeout"
  name := "Connection Timeout"
  description := "Detects network-level connection timeout errors"
  keywords :=
    [gs "connection timed out", gs "etimedout", gs "connection refused", gs "dial tcp"]
  patterns :=
    [rx "(?i)connection\\s+timed?\\s*out", rx "(?i)ETIMEDOUT", rx "(?i)ECONNREFUSED",
     rx "(?i)dial tcp.*timeout", rx "(?i)i/o timeout", rx "(?i)connect:.*timeout"]
  confidence := mkRat 85 100
  result :=
    { errorType := "connection_timeout"
      severity := "Medium"
      rootCause := "A network connection attempt timed out. This could indicate the target service is down, network issues, firewall blocking, or incorrect host/port configuration."
      suggestedActions :=
        ["Verify the target service is running and healthy",
         "Check network connectivity: ping, telnet, curl",
         "Review firewall rules and security groups",
         "Verify the host and port configuration",
         "Check DNS resolution"]
      preventionTips :=
        ["Implement health checks for dependencies",
         "Use circuit breakers for external services",
         "Configure appropriate timeout values",
         "Add retry logic with exponential backoff"] }

/-- `sslCertificateError()`. -/
def sslCertificateError (rx : String → GoStr → Bool) : Rule where
  id := gs "ssl_certificate_error"
  name := "SSL Certificate Error"
  description := "Detects SSL/TLS certificate issues"
  keywords := [gs "certificate verify failed", gs "certificate expired"]
  patterns :=
    [rx "(?i)certificate\\s+verify\\s+failed", rx "(?i)SSL.*certificate.*expired",
     rx "(?i)unable to verify the first certificate", rx "(?i)self.signed certificate",
     rx "(?i)x509.*certificate"]
  confidence := mkRat 9 10
  result :=
    { errorType := "ssl_certificate_error"
      severity := "High"
      rootCause := "SSL/TLS certificate validation failed. The certificate may be expired, self-signed, issued by an untrusted CA, or the hostname doesn't match."
      suggestedActions :=
        ["Check certificate expiration date",
         "Verify the certificate chain is complete",
         "Ensure the CA is trusted in the system's trust store",
         "Verify the hostname matches the certificate CN/SAN",
         "For internal services, add the CA to trusted certificates"]
      preventionTips :=
        ["Set up certificate expiration monitoring",
         "Use automated certificate renewal (Let's Encrypt)",
         "Implement certificate rotation procedures",
         "Document internal CA trust requirements"] }

/-- `diskSpaceFull()`. -/
def diskSpaceFull (rx : String → GoStr → Bool) : Rule where
  id := gs "disk_space_full"
  name := "Disk Space Full"
  description := "Detects disk space exhaustion"
  keywords := [gs "no space left on device", gs "disk full", gs "enospc"]
  patterns :=
    [rx "(?i)no space left on device", rx "(?i)ENOSPC", rx "(?i)disk\\s+quota\\s+exceeded"]
  confidence := mkRat 95 100
  result :=
    { errorType := "disk_space_full"
      severity := "High"
      rootCause := "The disk has run out of available space. This prevents writing new data and can cause application crashes or data corruption."
      suggestedActions :=
        ["Identify large files: du -sh /* | sort -h",
         "Clean up Docker resources: docker system prune -a",
         "Remove old log files and temporary data",
         "Extend disk size if in cloud environment",
         "Check for log rotation configuration"]
      preventionTips :=
        ["Implement disk space monitoring with alerts",
         "Configure log rotation policies",
         "Set up automatic cleanup of temporary files",
         "Use separate volumes for logs and data"] }

/-- `portAlreadyInUse()`. -/
def portAlreadyInUse (rx : String → GoStr → Bool) : Rule where
  id := gs "port_in_use"
  name := "Port Already In Use"
  description := "Detects port binding conflicts"
  keywords :=
    [gs "address already in use", gs "eaddrinuse", gs "port is already allocated"]
  patterns :=
    [rx "(?i)address already in use", rx "(?i)EADDRINUSE", rx "(?i)bind.*port.*already",
     rx "(?i)port\\s+\\d+.*is already allocated"]
  confidence := mkRat 95 100
  result :=
    { errorType := "port_already_in_use"
      severity := "Medium"
      rootCause := "The application cannot bind to the specified port because another process is already using it."
      suggestedActions :=
        ["Find the process using the port: lsof -i :<port> or netstat -tlnp",
         "Stop the conflicting process or service",
         "Configure the application to use a different port",
         "Check for zombie processes from previous runs"]
      preventionTips :=
        ["Use unique ports for each service",
         "Implement graceful shutdown to release ports",
         "Use port 0 for dynamic port allocation in tests",
         "Document port assignments in project documentation"] }

/-- `authenticationFailure()`. -/
def authenticationFailure (rx : String → GoStr → Bool) : Rule where
  id := gs "authentication_failure"
  name := "Authentication Failure"
  description := "Detects authentication and authorization failures"
  keywords :=
    [gs "authentication failed", gs "unauthorized", gs "access denied",
     gs "invalid credentials"]
  patterns :=
    [rx "(?i)authentication\\s+failed", rx "(?i)401\\s+unauthorized",
     rx "(?i)403\\s+forbidden", rx "(?i)invalid\\s+(credentials|token|api.?key)",
     rx "(?i)access\\s+denied"]
  confidence := mkRat 85 100
  result :=
    { errorType := "authentication_failure"
      severity := "High"
      rootCause := "Authentication or authorization failed. Credentials may be invalid, expired, or missing. The user/service may also lack required permissions."
      suggestedActions :=
        ["Verify credentials are correct and not expired",
         "Check if API keys or tokens need renewal",
         "Verify the service account has required permissions",
         "Check for environment variable configuration issues",
         "Review IAM policies and role assignments"]
      preventionTips :=
        ["Use secret management systems (Vault, AWS Secrets Manager)",
         "Implement credential rotation policies",
         "Use service accounts with minimal required permissions",
         "Monitor for authentication failures in security logs"] }

/-- `kubernetesImagePullBackoff()`. -/
def kubernetesImagePullBackoff (rx : String → GoStr → Bool) : Rule where
  id := gs "k8s_image_pull_backoff"
  name := "Kubernetes Image Pull BackOff"
  description := "Detects Kubernetes image pull failures"
  keywords := [gs "imagepullbackoff", gs "errimagepull", gs "failed to pull image"]
  patterns :=
    [rx "(?i)ImagePullBackOff", rx "(?i)ErrImagePull", rx "(?i)failed to pull image",
     rx "(?i)rpc error.*pulling image"]
  confidence := mkRat 95 100
  result :=
    { errorType := "kubernetes_image_pull_failure"
      severity := "High"
      rootCause := "Kubernetes cannot pull the specified container image. This could be due to image not existing, registry authentication issues, network problems, or incorrect image name/tag."
      suggestedActions :=
        ["Verify the image name and tag are correct",
         "Check if the image exists in the registry",
         "Verify imagePullSecrets are configured correctly",
         "Test registry connectivity from the cluster",
         "Check if the registry requires authentication"]
      preventionTips :=
        ["Use image digests instead of mutable tags",
         "Implement CI/CD checks for image availability",
         "Configure proper registry credentials in secrets",
         "Use a container registry with high availability"] }

/-- `rules.DefaultRules()`: the built-in rule table, in order. -/
def defaultRules (rx : String → GoStr → Bool) : List Rule :=
  [dockerBuildPermissionDenied rx,
   dockerDaemonNotRunning rx,
   npmInstallFailure rx,
   outOfMemory rx,
   connectionTimeout rx,
   sslCertificateError rx,
   diskSpaceFull rx,
   portAlreadyInUse rx,
   authenticationFailure rx,
   kubernetesImagePullBackoff rx]

/-! ## internal/ai (MockClient) -/

/-- The fixed result `MockClient.Analyze` returns. -/
def mockResult : AnalysisResult where
  errorType := "mock_error"
  severity := "Medium"
  rootCause := "This is a mock response. Enable real AI by setting AI_MOCK_MODE=false"
  suggestedActions :=
    ["Configure AI_API_KEY environment variable",
     "Set AI_MOCK_MODE=false to enable real AI analysis"]
  preventionTips := ["Use real AI for production analysis"]

/-- `MockClient.Analyze`: always succeeds with the fixed mock result. -/
def mockAnalyze : GoStr → Except AnalysisError AnalysisResult :=
  fun _ => .ok mockResult

/-! ## One default sanitizer pattern in full

`regexp.MustCompile("(?i)(authorization:\\s*)[a-zA-Z0-9_\\-\\.\\s]+")` from
`defaultPatterns`.  A match is a case-insensitive occurrence of the
literal `authorization:` followed by at least one character of the class
`[a-zA-Z0-9_\-.\s]` (RE2 `\s` is `[\t\n\f\r ]`); since `\s` is contained
in the class, the greedy quantifiers make the match extend over the whole
run of class characters after the colon.  `ReplaceAllStringFunc` rewrites
the non-overlapping matches left to right. -/

/-- RE2 `\s`: tab, newline, form feed, carriage return, space. -/
def re2Space (c : Char) : Bool :=
  c == '\t' || c == '\n' || c == '\x0c' || c == '\r' || c == ' '

/-- The character class `[a-zA-Z0-9_\-\.\s]` of the authorization pattern. -/
def authClassChar (c : Char) : Bool :=
  c.isAlpha || c.isDigit || c == '_' || c == '-' || c == '.' || re2Space c

/-- The literal part of the authorization pattern. -/
def authLit : GoStr := gs "authorization:"

/-- Case-insensitive prefix test (the effect of RE2 `(?i)` on a literal,
for ASCII). -/
def startsWithCI : GoStr → GoStr → Bool
  | [], _ => true
  | _ :: _, [] => false
  | p :: ps, c :: cs => (p.toLower == c.toLower) && startsWithCI ps cs

/-- The authorization-pattern match anchored at the start of `s`:
`some (matched, rest)` when a match begins here. -/
def authTryHere (s : GoStr) : Option (GoStr × GoStr) :=
  if startsWithCI authLit s then
    match (s.drop authLit.length).takeWhile authClassChar with
    | [] => none
    | c :: run =>
      some (s.take authLit.length ++ c :: run,
        (s.drop authLit.length).drop (c :: run).length)
  else none

/-- `MatchString` for the authorization pattern: a match begins at some
position of `s`. -/
def authMatchStr : GoStr → Bool
  | [] => false
  | c :: rest => (authTryHere (c :: rest)).isSome || authMatchStr rest

/-- `ReplaceAllStringFunc` for the authorization pattern, fuelled by the
string length (every match consumes at least 15 characters, so the fuel
never runs out on the intended call). -/
def authReplaceAux (f : GoStr → GoStr) : Nat → GoStr → GoStr
  | _, [] => []
  | 0, s => s
  | fuel + 1, c :: rest =>
    match authTryHere (c :: rest) with
    | some (m, after) => f m ++ authReplaceAux f fuel after
    | none => c :: authReplaceAux f fuel rest

/-- `ReplaceAllStringFunc` for the authorization pattern. -/
def authReplaceAll (f : GoStr → GoStr) (s : GoStr) : GoStr :=
  authReplaceAux f s.length s

/-- `len(FindAllString(s, -1))` for the authorization pattern. -/
def authCountAux : Nat → GoStr → Nat
  | _, [] => 0
  | 0, _ => 0
  | fuel + 1, c :: rest =>
    match authTryHere (c :: rest) with
    | some (_, after) => 1 + authCountAux fuel after
    | none => authCountAux fuel rest

/-- The authorization pattern as a `SecretPat`. -/
def authPat : SecretPat where
  matchStr := authMatchStr
  replaceAll := authReplaceAll
  findAllCount := fun s => authCountAux s.length s
  replaceAll_id_of_no_match := by
    intro f s h
    have aux : ∀ (fuel : Nat) (t : GoStr), authMatchStr t = false →
        authReplaceAux f fuel t = t := by
      intro fuel
      induction fuel with
      | zero => intro t _; cases t <;> rfl
      | succ n ih =>
        intro t ht
        cases t with
        | nil => rfl
        | cons c rest =>
          rw [authMatchStr] at ht
          have h1 : (authTryHere (c :: rest)).isSome = false :=
            (Bool.or_eq_false_iff.mp ht).1
          have h2 : authMatchStr rest = false := (Bool.or_eq_false_iff.mp ht).2
          rw [authReplaceAux]
          have h1' : authTryHere (c :: rest) = none :=
            Option.not_isSome_iff_eq_none.mp (by simp [h1])
          rw [h1', ih rest h2]
    exact aux s.length s h

/-! ## Concrete instances used by the example theorems -/

/-- A schema-conforming rule result for the example rule. -/
def exampleResult : AnalysisResult :=
  ⟨"example_error", "High", "an example root cause", ["restart the service"], []⟩

/-- A rule with confidence 0.5, below the example threshold 0.8, matching
any log containing `boom`. -/
def lowRule : Rule :=
  ⟨gs "low_rule", "Low Confidence Rule", "an example below-threshold rule",
    [], [gs "boom"], mkRat 1 2, exampleResult⟩

/-- An engine holding only `lowRule`, threshold 0.8. -/
def engEx : Engine := ⟨[lowRule], mkRat 8 10⟩

/-- A sanitizer with no masking patterns and a large ceiling. -/
def sanEx : Sanitizer := ⟨[], 1000⟩

/-- A sanitizer with no masking patterns and ceiling 3. -/
def sanSmall : Sanitizer := ⟨[], 3⟩

/-- A sanitizer holding the authorization pattern, ceiling 18. -/
def sanAuth : Sanitizer := ⟨[authPat], 18⟩

/-- An AI client that always fails with a retryable transport error. -/
def aiFailEx : GoStr → Except AnalysisError AnalysisResult :=
  fun _ => .error ⟨"http_request", "connection refused", true⟩

/-- A regex semantics under which no regex trigger fires (keyword triggers
alone drive the example rule matches). -/
def rxNone : String → GoStr → Bool := fun _ _ => false

/-- An example rule match at confidence 0.85. -/
def mA : RuleMatch := ⟨gs "rule_a", mkRat 85 100, exampleResult⟩

/-- An example rule match at confidence 0.9. -/
def mB : RuleMatch := ⟨gs "rule_b", mkRat 9 10, exampleResult⟩

/-- A second example rule match at confidence 0.9 (a tie with `mB`). -/
def mC : RuleMatch := ⟨gs "rule_c", mkRat 9 10, exampleResult⟩

/-- An engine used only for its threshold 0.8. -/
def engThresh : Engine := ⟨[], mkRat 8 10⟩

/-- An execution trace that fails retryably on attempt 0 and succeeds on
attempt 1. -/
def execRetryOnce : Nat → AIOutcome :=
  fun n =>
    if n = 0 then .fail ⟨"http_request", "connection refused", true⟩
    else .ok mockResult

/-- A context that is never cancelled. -/
def ctxNever : Nat → Bool := fun _ => false

/-! ## Helper lemmas about the best-match loop -/

theorem bestLoop_isSome (t : ℚ) (ms : List RuleMatch) :
    ∀ b0 : RuleMatch, ∃ b, bestLoop t (some b0) ms = some b := by
  induction ms with
  | nil => intro b0; exact ⟨b0, rfl⟩
  | cons m tl ih =>
    intro b0
    rw [bestLoop]
    by_cases hm : t ≤ m.confidence
    · simp only [hm, if_true]
      by_cases hbc : b0.confidence < m.confidence
      · simpa [hbc] using ih m
      · simpa [hbc] using ih b0
    · simpa [hm] using ih b0

theorem bestLoop_acc_char (t : ℚ) (ms : List RuleMatch) :
    ∀ b0 b : RuleMatch, bestLoop t (some b0) ms = some b →
      (b = b0 ∧ ∀ m ∈ ms, t ≤ m.confidence → m.confidence ≤ b0.confidence) ∨
      (∃ l1 l2, ms = l1 ++ b :: l2 ∧ t ≤ b.confidence ∧
        b0.confidence < b.confidence ∧
        (∀ m ∈ l1, t ≤ m.confidence → m.confidence < b.confidence) ∧
        (∀ m ∈ l2, t ≤ m.confidence → m.confidence ≤ b.confidence)) := by
  induction ms with
  | nil =>
    intro b0 b h
    rw [bestLoop] at h
    exact Or.inl ⟨(Option.some_inj.mp h).symm, by simp⟩
  | cons m tl ih =>
    intro b0 b h
    rw [bestLoop] at h
    by_cases hm : t ≤ m.confidence
    · simp only [hm, if_true] at h
      by_cases hbc : b0.confidence < m.confidence
      · simp only [hbc, if_true] at h
        rcases ih m b h with ⟨heq, hall⟩ | ⟨l1, l2, htl, hb, hlt, h1, h2⟩
        · refine Or.inr ⟨[], tl, by simp [heq], by rw [heq]; exact hm,
            by rw [heq]; exact hbc, by simp, ?_⟩
          intro x hx hxt
          rw [heq]
          exact hall x hx hxt
        · refine Or.inr ⟨m :: l1, l2, by simp [htl], hb,
            lt_trans hbc hlt, ?_, h2⟩
          intro x hx hxt
          rcases List.mem_cons.mp hx with hxm | hx
          · rw [hxm]; exact hlt
          · exact h1 x hx hxt
      · simp only [hbc, if_false] at h
        have hmle : m.confidence ≤ b0.confidence := le_of_not_lt hbc
        rcases ih b0 b h with ⟨heq, hall⟩ | ⟨l1, l2, htl, hb, hlt, h1, h2⟩
        · refine Or.inl ⟨heq, ?_⟩
          intro x hx hxt
          rcases List.mem_cons.mp hx with hxm | hx
          · rw [hxm]; exact hmle
          · exact hall x hx hxt
        · refine Or.inr ⟨m :: l1, l2, by simp [htl], hb, hlt, ?_, h2⟩
          intro x hx hxt
          rcases List.mem_cons.mp hx with hxm | hx
          · rw [hxm]; exact lt_of_le_of_lt hmle hlt
          · exact h1 x hx hxt
    · simp only [hm, if_false] at h
      rcases ih b0 b h with ⟨heq, hall⟩ | ⟨l1, l2, htl, hb, hlt, h1, h2⟩
      · refine Or.inl ⟨heq, ?_⟩
        intro x hx hxt
        rcases List.mem_cons.mp hx with hxm | hx
        · exact absurd hxt (by rw [hxm]; exact hm)
        · exact hall x hx hxt
      · refine Or.inr ⟨m :: l1, l2, by simp [htl], hb, hlt, ?_, h2⟩
        intro x hx hxt
        rcases List.mem_cons.mp hx with hxm | hx
        · exact absurd hxt (by rw [hxm]; exact hm)
        · exact h1 x hx hxt

theorem bestLoop_none_char (t : ℚ) (ms : List RuleMatch) :
    ∀ b : RuleMatch, bestLoop t none ms = some b →
      ∃ l1 l2, ms = l1 ++ b :: l2 ∧ t ≤ b.confidence ∧
        (∀ m ∈ l1, t ≤ m.confidence → m.confidence < b.confidence) ∧
        (∀ m ∈ l2, t ≤ m.confidence → m.confidence ≤ b.confidence) := by
  induction ms with
  | nil => intro b h; rw [bestLoop] at h; exact absurd h (by simp)
  | cons m tl ih =>
    intro b h
    rw [bestLoop] at h
    by_cases hm : t ≤ m.confidence
    · simp only [hm, if_true] at h
      rcases bestLoop_acc_char t tl m b h with ⟨rfl, hall⟩ | ⟨l1, l2, rfl, hb, hlt, h1, h2⟩
      · exact ⟨[], tl, rfl, hm, by simp, hall⟩
      · refine ⟨m :: l1, l2, rfl, hb, ?_, h2⟩
        intro x hx hxt
        rcases List.mem_cons.mp hx with rfl | hx
        · exact hlt
        · exact h1 x hx hxt
    · simp only [hm, if_false] at h
      rcases ih b h with ⟨l1, l2, rfl, hb, h1, h2⟩
      refine ⟨m :: l1, l2, rfl, hb, ?_, h2⟩
      intro x hx hxt
      rcases List.mem_cons.mp hx with rfl | hx
      · exact absurd hxt hm
      · exact h1 x hx hxt

theorem bestLoop_eq_none_iff (t : ℚ) (ms : List RuleMatch) :
    bestLoop t none ms = none ↔ ∀ m ∈ ms, ¬ t ≤ m.confidence := by
  induction ms with
  | nil => simp [bestLoop]
  | cons m tl ih =>
    rw [bestLoop]
    by_cases hm : t ≤ m.confidence
    · simp only [hm, if_true]
      obtain ⟨b, hb⟩ := bestLoop_isSome t tl m
      simp [hb, hm]
    · simp only [hm, if_false, ih, List.mem_cons]
      constructor
      · rintro h x (rfl | hx)
        · exact hm
        · exact h x hx
      · intro h x hx
        exact h x (Or.inr hx)

theorem getBestMatch_clears (e : Engine) (ms : List RuleMatch) (b : RuleMatch)
    (h : e.getBestMatch ms = some b) : e.confidenceThreshold ≤ b.confidence := by
  obtain ⟨l1, l2, _, hb, _, _⟩ := bestLoop_none_char e.confidenceThreshold ms b h
  exact hb

theorem getBestMatch_mem (e : Engine) (ms : List RuleMatch) (b : RuleMatch)
    (h : e.getBestMatch ms = some b) : b ∈ ms := by
  obtain ⟨l1, l2, rfl, _, _, _⟩ := bestLoop_none_char e.confidenceThreshold ms b h
  simp

theorem shouldUse_false_getBestMatch_none (e : Engine) (ms : List RuleMatch)
    (h : e.shouldUseRuleResult ms = false) : e.getBestMatch ms = none := by
  rcases hb : e.getBestMatch ms with _ | b
  · rfl
  · rw [Engine.shouldUseRuleResult, hb] at h
    simp [getBestMatch_clears e ms b hb] at h

/-! ## Helper lemmas about `Engine.Analyze` -/

theorem engineAnalyze_eq_filter_map (log : GoStr) (rules : List Rule) :
    engineAnalyze log rules =
      (rules.filter (fun r => ruleMatch r log)).map
        (fun r => ⟨r.id, r.confidence, r.result⟩) := by
  induction rules with
  | nil => rfl
  | cons r rs ih =>
    rw [engineAnalyze, List.filter_cons]
    by_cases h : ruleMatch r log
    · simp [h, ih]
    · simp [h, ih]

theorem mem_engineAnalyze (log : GoStr) (rules : List Rule) (m : RuleMatch)
    (h : m ∈ engineAnalyze log rules) :
    ∃ r ∈ rules, m = ⟨r.id, r.confidence, r.result⟩ := by
  induction rules with
  | nil => cases h
  | cons r rs ih =>
    rw [engineAnalyze] at h
    by_cases hr : ruleMatch r log
    · rw [if_pos hr] at h
      rcases List.mem_cons.mp h with rfl | h
      · exact ⟨r, List.mem_cons_self r rs, rfl⟩
      · obtain ⟨r2, hr2, hm⟩ := ih h
        exact ⟨r2, List.mem_cons_of_mem r hr2, hm⟩
    · rw [if_neg hr] at h
      obtain ⟨r2, hr2, hm⟩ := ih h
      exact ⟨r2, List.mem_cons_of_mem r hr2, hm⟩

/-! ## Helper lemmas about the sanitizer -/

theorem dropWhile_idem (p : Char → Bool) (l : GoStr) :
    (l.dropWhile p).dropWhile p = l.dropWhile p := by
  induction l with
  | nil => rfl
  | cons c tl ih =>
    by_cases h : p c
    · simp [List.dropWhile_cons, h, ih]
    · simp [List.dropWhile_cons, h]

theorem dropWhile_eq_self_of_prefix (p : Char → Bool) (l l' : GoStr)
    (hl : l.dropWhile p = l) (hp : l' <+: l) : l'.dropWhile p = l' := by
  cases l' with
  | nil => rfl
  | cons c tl' =>
    obtain ⟨rest, hrest⟩ := hp
    cases l with
    | nil => simp at hrest
    | cons d tl =>
      have hcd : c = d := (List.cons.injEq c (tl' ++ rest) d tl ▸ hrest).1
      subst hcd
      have hc : p c = false := by
        by_contra hc
        rw [Bool.not_eq_false] at hc
        rw [List.dropWhile_cons, if_pos hc] at hl
        have hlen := congrArg List.length hl
        have hle := (List.dropWhile_sublist (l := tl) (p := p)).length_le
        simp at hlen
        omega
      rw [List.dropWhile_cons, hc]
      simp

theorem trimSpace_idem (s : GoStr) : trimSpace (trimSpace s) = trimSpace s := by
  set p := unicodeIsSpace
  have hrev : (trimSpace s).reverse.dropWhile p = (trimSpace s).reverse := by
    rw [trimSpace, List.reverse_reverse]
    exact dropWhile_idem p _
  have hfwd : (trimSpace s).dropWhile p = trimSpace s := by
    have hbase : (s.dropWhile p).dropWhile p = s.dropWhile p := dropWhile_idem p s
    have hpre : trimSpace s <+: s.dropWhile p := by
      rw [trimSpace]
      have hsuf : (s.dropWhile p).reverse.dropWhile p <:+ (s.dropWhile p).reverse :=
        List.dropWhile_suffix p
      have := hsuf.reverse
      simpa using this
    exact dropWhile_eq_self_of_prefix p _ _ hbase hpre
  rw [trimSpace, hfwd, hrev, List.reverse_reverse]

theorem maskSecrets_id_of_no_match (san : Sanitizer) (t : GoStr)
    (h : ∀ p ∈ san.patterns, p.matchStr t = false) : maskSecrets san t = t := by
  have aux : ∀ ps : List SecretPat, (∀ p ∈ ps, p.matchStr t = false) →
      List.foldl (fun acc p => p.replaceAll maskValue acc) t ps = t := by
    intro ps
    induction ps with
    | nil => intro _; rfl
    | cons p pstl ih =>
      intro hall
      rw [List.foldl_cons, p.replaceAll_id_of_no_match maskValue t
        (hall p (List.mem_cons_self p pstl))]
      exact ih (fun q hq => hall q (List.mem_cons_of_mem p hq))
  exact aux san.patterns h

theorem goTruncate_length_le (maxSize : Nat) (s : GoStr) :
    (goTruncate maxSize s).length ≤ maxSize := by
  rw [goTruncate]
  by_cases h : s.length > maxSize
  · rw [if_pos h, List.length_take]
    omega
  · rw [if_neg h]
    omega

/-! ## Helper lemma for the retry loop -/

theorem analyzeLoop_prefix_fail (ctx : Nat → Bool) (exec : Nat → AIOutcome)
    (k : Nat) :
    ∀ (n rem : Nat) (acc : List Nat), k ≤ rem →
      (∀ i, i < k → ∃ e, exec (n + i) = .fail e ∧ e.retryable = true) →
      (∀ i, 0 < i → i ≤ k → ctx (n + i) = false) →
      analyzeLoop ctx exec n rem acc =
        analyzeLoop ctx exec (n + k) (rem - k)
          (acc ++ (List.range k).map (fun i => (n + i + 1) * (n + i + 1))) := by
  induction k with
  | zero => intro n rem acc _ _ _; simp
  | succ k ih =>
    intro n rem acc hk hfail hctx
    obtain ⟨e, he, hr⟩ := hfail 0 (Nat.succ_pos k)
    rw [Nat.add_zero] at he
    obtain ⟨rem', rfl⟩ : ∃ rem', rem = rem' + 1 :=
      ⟨rem - 1, by omega⟩
    rw [analyzeLoop, he]
    dsimp only
    rw [if_pos hr]
    have hc1 : ctx (n + 1) = false := hctx 1 Nat.one_pos (by omega)
    rw [if_neg (by simp [hc1])]
    rw [ih (n + 1) rem' (acc ++ [(n + 1) * (n + 1)]) (by omega)
      (fun i hi => by
        have hs := hfail (i + 1) (by omega)
        have harg : n + 1 + i = n + (i + 1) := by omega
        rw [harg]
        exact hs)
      (fun i hip hik => by
        have hs := hctx (i + 1) (by omega) (by omega)
        have harg : n + 1 + i = n + (i + 1) := by omega
        rw [harg]
        exact hs)]
    have hfun : ∀ i ∈ List.range k,
        ((fun i => (n + i + 1) * (n + i + 1)) ∘ Nat.succ) i =
          (n + 1 + i + 1) * (n + 1 + i + 1) := by
      intro i _
      have harg : n + (i + 1) + 1 = n + 1 + i + 1 := by omega
      simp only [Function.comp, Nat.succ_eq_add_one]
      rw [harg]
    have harr : acc ++ [(n + 1) * (n + 1)] ++
        (List.range k).map (fun i => (n + 1 + i + 1) * (n + 1 + i + 1)) =
        acc ++ (List.range (k + 1)).map (fun i => (n + i + 1) * (n + i + 1)) := by
      rw [List.append_assoc, List.range_succ_eq_map, List.map_cons, List.map_map,
        List.map_congr_left hfun]
      norm_num
    rw [harr]
    have h1 : n + 1 + k = n + (k + 1) := by omega
    have h2 : rem' - k = rem' + 1 - (k + 1) := by omega
    rw [h1, h2]

/-! ## Helper lemmas about the Analyzer pipeline -/

theorem ruleStep_eq_none (eng : Engine) (s : GoStr)
    (h : ruleStep eng s = none) :
    eng.getBestMatch (engineAnalyze s eng.rules) = none := by
  rcases hbm : eng.getBestMatch (engineAnalyze s eng.rules) with _ | best
  · rfl
  · rw [ruleStep, hbm] at h
    dsimp only at h
    rw [if_pos (getBestMatch_clears _ _ _ hbm)] at h
    cases h

theorem ruleStep_some (eng : Engine) (s : GoStr) (resp : AnalysisResponse)
    (h : ruleStep eng s = some resp) :
    ∃ best, eng.getBestMatch (engineAnalyze s eng.rules) = some best ∧
      resp = ⟨true, some best.result, "", gs "rules:" ++ best.ruleID⟩ := by
  rcases hbm : eng.getBestMatch (engineAnalyze s eng.rules) with _ | best
  · rw [ruleStep, hbm] at h
    cases h
  · rw [ruleStep, hbm] at h
    dsimp only at h
    rw [if_pos (getBestMatch_clears _ _ _ hbm)] at h
    exact ⟨best, rfl, (Option.some_inj.mp h).symm⟩

theorem fallbackStep_of_none (eng : Engine) (s : GoStr) (err : AnalysisError)
    (h : eng.getBestMatch (engineAnalyze s eng.rules) = none) :
    fallbackStep eng s err = failResp err := by
  rw [fallbackStep]
  rcases hma : engineAnalyze s eng.rules with _ | ⟨m, ms⟩
  · rfl
  · rw [hma] at h
    dsimp only
    rw [h]

/-- Every Analyzer response is a failure envelope, a rule-path success
carrying a rule-table match, or an AI-path success; the below-threshold
fallback branch is unreachable because it is gated by the same
`GetBestMatch` that just returned nothing. -/
theorem analyzer_response_cases (enableRules : Bool) (eng : Engine)
    (san : Sanitizer) (ai : GoStr → Except AnalysisError AnalysisResult)
    (log : GoStr) :
    (∃ e, analyzerAnalyze enableRules eng san ai log = ⟨false, none, e, []⟩) ∨
    (∃ best, best ∈ engineAnalyze (sanitizeWithStats san log).1 eng.rules ∧
      analyzerAnalyze enableRules eng san ai log =
        ⟨true, some best.result, "", gs "rules:" ++ best.ruleID⟩) ∨
    (∃ res, ai (sanitizeWithStats san log).1 = .ok res ∧
      analyzerAnalyze enableRules eng san ai log =
        ⟨true, some res, "", gs "ai"⟩) := by
  by_cases hemp : sanIsEmpty log = true
  · rw [analyzerAnalyze, if_pos hemp]
    exact Or.inl ⟨errEmptyLogMsg, rfl⟩
  · rw [analyzerAnalyze, if_neg hemp]
    cases enableRules with
    | false =>
      rw [if_neg (by simp)]
      dsimp only
      rcases hai2 : ai (sanitizeWithStats san log).1 with err | res
      · dsimp only
        rw [if_neg (by simp)]
        exact Or.inl ⟨err.errorString, rfl⟩
      · exact Or.inr (Or.inr ⟨res, rfl, rfl⟩)
    | true =>
      rw [if_pos rfl]
      rcases hrs : ruleStep eng (sanitizeWithStats san log).1 with _ | resp
      · dsimp only
        rcases hai2 : ai (sanitizeWithStats san log).1 with err | res
        · dsimp only
          rw [if_pos rfl,
            fallbackStep_of_none eng _ err (ruleStep_eq_none _ _ hrs)]
          exact Or.inl ⟨err.errorString, rfl⟩
        · exact Or.inr (Or.inr ⟨res, rfl, rfl⟩)
      · dsimp only
        obtain ⟨best, hbm, hresp⟩ := ruleStep_some eng _ resp hrs
        exact Or.inr (Or.inl ⟨best, getBestMatch_mem eng _ best hbm, by rw [hresp]⟩)

/-- Every result in the default rule table conforms to the validator's
schema. -/
theorem defaultRules_results_valid (rx : String → GoStr → Bool) :
    ∀ r ∈ defaultRules rx, validate (some r.result) = none := by
  intro r hr
  simp only [defaultRules, List.mem_cons, List.not_mem_nil, or_false] at hr
  rcases hr with rfl | rfl | rfl | rfl | rfl | rfl | rfl | rfl | rfl | rfl <;>
    · dsimp only [dockerBuildPermissionDenied, dockerDaemonNotRunning,
        npmInstallFailure, outOfMemory, connectionTimeout, sslCertificateError,
        diskSpaceFull, portAlreadyInUse, authenticationFailure,
        kubernetesImagePullBackoff]
      decide

/-- The backoff schedule `[1, 4, 9, …]` is strictly increasing. -/
theorem backoffs_sorted (k : Nat) :
    (((List.range k).map (fun i => (i + 1) * (i + 1)))).Sorted (· < ·) := by
  refine List.Pairwise.map _ ?_ (List.pairwise_lt_range k)
  intro a b hab
  exact Nat.mul_lt_mul_of_lt_of_le (by omega) (by omega) (by omega)

/-- `"rules:" + id` never begins with `"rules_fallback:"`: the two differ
at the character after `rules`. -/
theorem rules_source_no_fallback (l : GoStr) :
    List.isPrefixOf (gs "rules_fallback:") (gs "rules:" ++ l) = false := rfl

/-! ## The claims -/

/-- C1, counterexample: rules are enabled, the single rule of the table
matches the log `boom` at confidence 0.5 (below the threshold 0.8), and
the reasoning client always fails with a retryable error — yet the
Analyzer returns `success = false` with the AI error message and an empty
source, not a `rules_fallback:` success: the fallback filters the matches
through the threshold-gated `GetBestMatch`. -/
theorem claim1_counterexample :
    engineAnalyze (gs "boom") engEx.rules ≠ [] ∧
    (analyzerAnalyze true engEx sanEx aiFailEx (gs "boom")).success = false ∧
    (analyzerAnalyze true engEx sanEx aiFailEx (gs "boom")).source = [] ∧
    (analyzerAnalyze true engEx sanEx aiFailEx (gs "boom")).error =
      "http_request: connection refused" := by
  refine ⟨by decide, by decide, by decide, by decide⟩

/-- C1 (amended): when the input is non-empty, the rule path does not
resolve and the reasoning client fails, the Analyzer with rules enabled
returns `success = false` exposing the underlying error message — the
fallback re-evaluates the rule table but keeps only matches at or above
the configured threshold, and the reasoning path is only reached when no
match clears it, so no fallback result exists. -/
theorem claim1_fallback_amended (eng : Engine) (san : Sanitizer)
    (ai : GoStr → Except AnalysisError AnalysisResult) (log : GoStr)
    (err : AnalysisError)
    (hne : sanIsEmpty log = false)
    (hno : eng.shouldUseRuleResult
      (engineAnalyze (sanitizeWithStats san log).1 eng.rules) = false)
    (hai : ai (sanitizeWithStats san log).1 = .error err) :
    analyzerAnalyze true eng san ai log = failResp err := by
  rw [analyzerAnalyze, if_neg (by simp [hne])]
  have hbest := shouldUse_false_getBestMatch_none _ _ hno
  have hrs : ruleStep eng (sanitizeWithStats san log).1 = none := by
    rw [ruleStep, hbest]
  rw [if_pos rfl, hrs]
  dsimp only
  rw [hai]
  dsimp only
  rw [if_pos rfl]
  exact fallbackStep_of_none eng _ err hbest

/-- C1, witness for the amended claim at a concrete input. -/
theorem claim1_fallback_witness :
    analyzerAnalyze true engEx sanEx aiFailEx (gs "boom") =
      failResp ⟨"http_request", "connection refused", true⟩ :=
  claim1_fallback_amended engEx sanEx aiFailEx (gs "boom")
    ⟨"http_request", "connection refused", true⟩ (by decide) (by decide) rfl

/-- C2: `GetBestMatch` returns `none` exactly when no match reaches the
threshold; otherwise it returns a match that clears the threshold, has
maximal confidence among the matches clearing it, and is the first of its
confidence in table order (everything before it that clears the threshold
is strictly lower). -/
theorem claim2_best_match (e : Engine) (ms : List RuleMatch) :
    (e.getBestMatch ms = none ↔
      ∀ m ∈ ms, m.confidence < e.confidenceThreshold) ∧
    (∀ b, e.getBestMatch ms = some b →
      ∃ l1 l2, ms = l1 ++ b :: l2 ∧ e.confidenceThreshold ≤ b.confidence ∧
        (∀ m ∈ l1, e.confidenceThreshold ≤ m.confidence →
          m.confidence < b.confidence) ∧
        (∀ m ∈ l2, e.confidenceThreshold ≤ m.confidence →
          m.confidence ≤ b.confidence)) := by
  constructor
  · rw [Engine.getBestMatch, bestLoop_eq_none_iff]
    constructor
    · intro h m hm
      exact lt_of_not_le (h m hm)
    · intro h m hm
      exact not_le.mpr (h m hm)
  · intro b hb
    exact bestLoop_none_char e.confidenceThreshold ms b hb

/-- C2, witness: with threshold 0.8 over matches at 0.85, 0.9, 0.9 the
loop selects the first of the two 0.9 matches. -/
theorem claim2_witness :
    ∃ l1 l2, [mA, mB, mC] = l1 ++ mB :: l2 ∧
      engThresh.confidenceThreshold ≤ mB.confidence ∧
      (∀ m ∈ l1, engThresh.confidenceThreshold ≤ m.confidence →
        m.confidence < mB.confidence) ∧
      (∀ m ∈ l2, engThresh.confidenceThreshold ≤ m.confidence →
        m.confidence ≤ mB.confidence) :=
  (claim2_best_match engThresh [mA, mB, mC]).2 mB (by decide)

/-- C3: `Engine.Analyze` returns exactly the matching rules, one
`RuleMatch` per matching rule in table order, and a rule matches iff one
of its keywords occurs case-insensitively in the text or one of its regex
triggers fires. -/
theorem claim3_evaluate (e : Engine) (log : GoStr) :
    e.analyze log = (e.rules.filter (fun r => ruleMatch r log)).map
      (fun r => ⟨r.id, r.confidence, r.result⟩) ∧
    ∀ r : Rule, ruleMatch r log = true ↔
      ((∃ kw ∈ r.keywords, (kw.map Char.toLower) <:+: (log.map Char.toLower)) ∨
        (∃ p ∈ r.patterns, p log = true)) := by
  constructor
  · rw [Engine.analyze]
    exact engineAnalyze_eq_filter_map log e.rules
  · intro r
    rw [ruleMatch]
    simp [List.any_eq_true]

/-- C3, witness: the characterisation evaluated on the example engine
(one keyword rule) at a concrete mixed-case log. -/
theorem claim3_witness :
    engEx.analyze (gs "Boom time") =
      (engEx.rules.filter (fun r => ruleMatch r (gs "Boom time"))).map
        (fun r => ⟨r.id, r.confidence, r.result⟩) :=
  (claim3_evaluate engEx (gs "Boom time")).1

/-- C4, counterexample: the sanitizer holding the (faithfully embedded)
authorization masking pattern with ceiling 18 receives a 21-character
input; the stats report `truncated = true`, but masking expands the
truncated text to 24 characters, exceeding the ceiling. -/
theorem claim4_counterexample :
    (gs "authorization: abcXYZ").length > sanAuth.maxSize ∧
    (sanitizeWithStats sanAuth (gs "authorization: abcXYZ")).2.truncated = true ∧
    ¬ ((sanitizeWithStats sanAuth (gs "authorization: abcXYZ")).1.length ≤
      sanAuth.maxSize) := by
  refine ⟨by decide, by decide, by decide⟩

/-- C4 (amended): for input longer than the ceiling the stats always
report `truncated = true`, and the cleaned text is within the ceiling
provided no masking pattern matches the truncated text (masking may
otherwise expand it past the ceiling). -/
theorem claim4_truncation_amended (san : Sanitizer) (x : GoStr)
    (hlen : san.maxSize < x.length) :
    (sanitizeWithStats san x).2.truncated = true ∧
    ((∀ p ∈ san.patterns,
        p.matchStr (goTruncate san.maxSize (trimSpace x)) = false) →
      (sanitizeWithStats san x).1.length ≤ san.maxSize) := by
  constructor
  · simp [sanitizeWithStats, hlen]
  · intro h
    have hcl : (sanitizeWithStats san x).1 = goTruncate san.maxSize (trimSpace x) := by
      show sanitize san x = goTruncate san.maxSize (trimSpace x)
      rw [sanitize, maskSecrets_id_of_no_match san _ h]
    rw [hcl]
    exact goTruncate_length_le san.maxSize (trimSpace x)

/-- C4, witness for the amended claim at a concrete input. -/
theorem claim4_truncation_witness :
    (sanitizeWithStats sanSmall (gs "abcd")).2.truncated = true ∧
    ((∀ p ∈ sanSmall.patterns,
        p.matchStr (goTruncate sanSmall.maxSize (trimSpace (gs "abcd"))) = false) →
      (sanitizeWithStats sanSmall (gs "abcd")).1.length ≤ sanSmall.maxSize) :=
  claim4_truncation_amended sanSmall (gs "abcd") (by decide)

/-- C5, counterexample: with ceiling 3 and no masking patterns (so no
secret pattern matches the input at all), sanitizing `ab cd` once gives
`ab ` — truncation exposes a trailing space — and sanitizing again trims
it to `ab`, so sanitize is not idempotent as claimed. -/
theorem claim5_counterexample :
    (∀ p ∈ sanSmall.patterns, p.matchStr (gs "ab cd") = false) ∧
    sanitize sanSmall (sanitize sanSmall (gs "ab cd")) ≠
      sanitize sanSmall (gs "ab cd") := by
  refine ⟨by decide, by decide⟩

/-- C5 (amended): sanitize is idempotent on inputs with no secret-pattern
match whose trimmed length is within the ceiling — once truncation cannot
expose trailing whitespace, a second sanitize changes nothing. -/
theorem claim5_idem_amended (san : Sanitizer) (x : GoStr)
    (hfit : (trimSpace x).length ≤ san.maxSize)
    (hnosecret : ∀ p ∈ san.patterns, p.matchStr (trimSpace x) = false) :
    sanitize san (sanitize san x) = sanitize san x := by
  have htr : goTruncate san.maxSize (trimSpace x) = trimSpace x := by
    rw [goTruncate, if_neg (by omega)]
  have h1 : sanitize san x = trimSpace x := by
    rw [sanitize, htr, maskSecrets_id_of_no_match san _ hnosecret]
  rw [h1, sanitize, trimSpace_idem, htr,
    maskSecrets_id_of_no_match san _ hnosecret]

/-- C5, witness for the amended claim at a concrete input. -/
theorem claim5_idem_witness :
    sanitize sanSmall (sanitize sanSmall (gs " ab ")) =
      sanitize sanSmall (gs " ab ") :=
  claim5_idem_amended sanSmall (gs " ab ") (by decide) (by decide)

/-- C6: the validator accepts exactly the results that are present with a
non-empty error type, a severity among Low/Medium/High, a non-empty root
cause, a non-empty list of non-empty suggested actions and only non-empty
prevention tips; every rejection is non-retryable. -/
theorem claim6_validator (r? : Option AnalysisResult) :
    (validate r? = none ↔ ∃ r, r? = some r ∧
      r.errorType ≠ "" ∧
      (r.severity = "Low" ∨ r.severity = "Medium" ∨ r.severity = "High") ∧
      r.rootCause ≠ "" ∧
      r.suggestedActions ≠ [] ∧
      (∀ a ∈ r.suggestedActions, a ≠ "") ∧
      (∀ tp ∈ r.preventionTips, tp ≠ "")) ∧
    (∀ e, validate r? = some e → e.retryable = false) := by
  constructor
  · cases r? with
    | none => simp [validate]
    | some r =>
      rw [validate]
      constructor
      · intro h
        split_ifs at h with h1 h2 h3 h4 h5 h6
        refine ⟨r, rfl, ?_, ?_, ?_, ?_, ?_, ?_⟩
        · simpa using h1
        · have hsv : severityIsValid r.severity = true := by simpa using h2
          simpa [severityIsValid, or_assoc] using hsv
        · simpa using h3
        · simpa [List.isEmpty_iff] using h4
        · intro a ha h0
          have hnot : "" ∉ r.suggestedActions := by simpa using h5
          rw [h0] at ha
          exact hnot ha
        · intro tp htp h0
          have hnot : "" ∉ r.preventionTips := by simpa using h6
          rw [h0] at htp
          exact hnot htp
      · rintro ⟨r2, heq, het, hsev, hrc, hsa, hsaAll, hptAll⟩
        have hr2 : r2 = r := (Option.some_inj.mp heq).symm
        rw [hr2] at het hsev hrc hsa hsaAll hptAll
        have c1 : (r.errorType == "") = false := by simpa using het
        have csv : severityIsValid r.severity = true := by
          rcases hsev with h | h | h <;> simp [severityIsValid, h]
        have c3 : (r.rootCause == "") = false := by simpa using hrc
        have c4 : r.suggestedActions.isEmpty = false := by
          simpa [List.isEmpty_iff] using hsa
        have c5 : r.suggestedActions.any (fun a => a == "") = false := by
          rw [List.any_eq_false]
          intro a ha
          simpa using hsaAll a ha
        have c6 : r.preventionTips.any (fun tp => tp == "") = false := by
          rw [List.any_eq_false]
          intro tp htp
          simpa using hptAll tp htp
        simp [c1, csv, c3, c4, c5, c6]
  · intro e he
    cases r? with
    | none =>
      rw [validate] at he
      cases he
      rfl
    | some r =>
      rw [validate] at he
      split_ifs at he
      all_goals rw [← Option.some_inj.mp he]

/-- C6, witness: the validator accepts the example schema-conforming
result. -/
theorem claim6_witness : validate (some exampleResult) = none :=
  (claim6_validator (some exampleResult)).1.mpr
    ⟨exampleResult, rfl, by decide, Or.inr (Or.inr rfl), by decide, by decide,
      by decide, by decide⟩

/-- C7: the retry loop of the network client as a state machine — a run
failing retryably on the first k attempts and succeeding on attempt k+1
(k < MaxRetries) returns the success after exactly k waits of 1², 2², …,
k² seconds (a strictly increasing schedule); a fatal failure stops with
that error; exhausting all MaxRetries retries stops with the last error;
and a context cancelled during the wait aborts with the cancellation
error. -/
theorem claim7_retry_machine (maxRetries : Nat) (ctx : Nat → Bool)
    (exec : Nat → AIOutcome) :
    (∀ k r, k < maxRetries →
      (∀ i, i < k → ∃ e, exec i = .fail e ∧ e.retryable = true) →
      exec k = .ok r → (∀ n, ctx n = false) →
      openAIAnalyze maxRetries ctx exec =
        ⟨.ok r, (List.range k).map (fun i => (i + 1) * (i + 1))⟩ ∧
      ((List.range k).map (fun i => (i + 1) * (i + 1))).length = k ∧
      ((List.range k).map (fun i => (i + 1) * (i + 1))).Sorted (· < ·)) ∧
    (∀ j e, j ≤ maxRetries →
      (∀ i, i < j → ∃ e2, exec i = .fail e2 ∧ e2.retryable = true) →
      exec j = .fail e → e.retryable = false → (∀ n, ctx n = false) →
      openAIAnalyze maxRetries ctx exec =
        ⟨.error e, (List.range j).map (fun i => (i + 1) * (i + 1))⟩) ∧
    (∀ efun : Nat → AnalysisError,
      (∀ i, i ≤ maxRetries →
        exec i = .fail (efun i) ∧ (efun i).retryable = true) →
      (∀ n, ctx n = false) →
      openAIAnalyze maxRetries ctx exec =
        ⟨.error (efun maxRetries),
          (List.range maxRetries).map (fun i => (i + 1) * (i + 1))⟩) ∧
    (∀ j, 0 < j → j ≤ maxRetries →
      (∀ i, i < j → ∃ e2, exec i = .fail e2 ∧ e2.retryable = true) →
      (∀ i, i < j → ctx i = false) → ctx j = true →
      openAIAnalyze maxRetries ctx exec =
        ⟨.error contextCancelledErr,
          (List.range (j - 1)).map (fun i => (i + 1) * (i + 1))⟩) := by
  have hpre : ∀ k, k ≤ maxRetries →
      (∀ i, i < k → ∃ e, exec i = .fail e ∧ e.retryable = true) →
      (∀ i, 0 < i → i ≤ k → ctx i = false) →
      openAIAnalyze maxRetries ctx exec =
        analyzeLoop ctx exec k (maxRetries - k)
          ((List.range k).map (fun i => (i + 1) * (i + 1))) := by
    intro k hk hfail hctx
    have h := analyzeLoop_prefix_fail ctx exec k 0 maxRetries [] hk
      (fun i hi => by simpa using hfail i hi)
      (fun i hip hik => by simpa using hctx i hip hik)
    simpa [openAIAnalyze] using h
  refine ⟨?_, ?_, ?_, ?_⟩
  · intro k r hk hfail hok hctx
    refine ⟨?_, by simp, backoffs_sorted k⟩
    rw [hpre k (le_of_lt hk) hfail (fun i _ _ => hctx i), analyzeLoop, hok]
  · intro j e hj hfail hfat hret hctx
    rw [hpre j hj hfail (fun i _ _ => hctx i), analyzeLoop, hfat]
    dsimp only
    rw [if_neg (by simp [hret])]
  · intro efun hall hctx
    rw [hpre maxRetries le_rfl
      (fun i hi => ⟨efun i, hall i (le_of_lt hi)⟩) (fun i _ _ => hctx i),
      analyzeLoop, (hall maxRetries le_rfl).1]
    dsimp only
    rw [if_pos (hall maxRetries le_rfl).2, Nat.sub_self]
  · intro j hj0 hj hfail hctxlt hctxj
    obtain ⟨e2, he2, hr2⟩ := hfail (j - 1) (by omega)
    rw [hpre (j - 1) (by omega) (fun i hi => hfail i (by omega))
      (fun i hip hik => hctxlt i (by omega)), analyzeLoop, he2]
    dsimp only
    rw [if_pos hr2]
    obtain ⟨rr, hrr⟩ : ∃ rr, maxRetries - (j - 1) = rr + 1 :=
      ⟨maxRetries - j, by omega⟩
    rw [hrr]
    dsimp only
    have hj1 : j - 1 + 1 = j := by omega
    rw [hj1, if_pos hctxj]

/-- C7, witness: with MaxRetries 2, a client failing retryably on attempt
0 and succeeding on attempt 1 returns the success after one 1-second
backoff. -/
theorem claim7_witness :
    openAIAnalyze 2 ctxNever execRetryOnce =
      ⟨.ok mockResult, (List.range 1).map (fun i => (i + 1) * (i + 1))⟩ :=
  (((claim7_retry_machine 2 ctxNever execRetryOnce).1 1 mockResult
    (by omega)
    (fun i hi => by
      obtain rfl : i = 0 := by omega
      exact ⟨⟨"http_request", "connection refused", true⟩, rfl, rfl⟩)
    rfl
    (fun n => rfl))).1

/-- C8: under the shipped validator-backed (or mock) reasoning clients —
any client whose successes pass the validator — every success response of
the Analyzer over the default rule table carries a result conforming to
the canonical output shape, whichever path (rule, fallback, AI) produced
it. -/
theorem claim8_canonical_shape (rx : String → GoStr → Bool) (t : ℚ)
    (san : Sanitizer) (ai : GoStr → Except AnalysisError AnalysisResult)
    (enableRules : Bool) (log : GoStr)
    (hai : ∀ s r, ai s = .ok r → validate (some r) = none)
    (hsucc : (analyzerAnalyze enableRules ⟨defaultRules rx, t⟩ san ai log).success
      = true) :
    ∃ r, (analyzerAnalyze enableRules ⟨defaultRules rx, t⟩ san ai log).result
        = some r ∧ validate (some r) = none := by
  rcases analyzer_response_cases enableRules ⟨defaultRules rx, t⟩ san ai log with
    ⟨e, hresp⟩ | ⟨best, hmem, hresp⟩ | ⟨res, hok, hresp⟩
  · rw [hresp] at hsucc
    simp at hsucc
  · rw [hresp]
    refine ⟨best.result, rfl, ?_⟩
    obtain ⟨r, hr, heqb⟩ := mem_engineAnalyze _ _ _ hmem
    have hv := defaultRules_results_valid rx r hr
    rw [heqb]
    exact hv
  · rw [hresp]
    exact ⟨res, rfl, hai _ _ hok⟩

/-- C8, witness: the mock client (whose fixed result passes the
validator) over the default rules at threshold 0.8 on a log matching no
rule resolves through the AI path with a schema-conforming result. -/
theorem claim8_witness :
    ∃ r, (analyzerAnalyze true ⟨defaultRules rxNone, mkRat 8 10⟩ sanEx
        mockAnalyze (gs "hello friend")).result = some r ∧
      validate (some r) = none :=
  claim8_canonical_shape rxNone (mkRat 8 10) sanEx mockAnalyze true
    (gs "hello friend")
    (fun s r h => by
      cases h
      rfl)
    (by decide)

/-- C9: no Analyzer response ever carries a source prefixed
`rules_fallback:` — the reasoning client runs only when the threshold-
gated `GetBestMatch` returned nothing, and the fallback recomputes the
same matches from the same sanitized log through the same gate, which
again yields nothing. -/
theorem claim9_no_fallback_source (enableRules : Bool) (eng : Engine)
    (san : Sanitizer) (ai : GoStr → Except AnalysisError AnalysisResult)
    (log : GoStr) :
    List.isPrefixOf (gs "rules_fallback:")
      (analyzerAnalyze enableRules eng san ai log).source = false ∧
    (eng.shouldUseRuleResult
        (engineAnalyze (sanitizeWithStats san log).1 eng.rules) = false →
      eng.getBestMatch
        (engineAnalyze (sanitizeWithStats san log).1 eng.rules) = none) := by
  refine ⟨?_, shouldUse_false_getBestMatch_none eng _⟩
  rcases analyzer_response_cases enableRules eng san ai log with
    ⟨e, hresp⟩ | ⟨best, _, hresp⟩ | ⟨res, _, hresp⟩ <;> rw [hresp]
  · dsimp only
    decide
  · exact rules_source_no_fallback best.ruleID
  · dsimp only
    decide

/-- C9, witness: the concrete below-threshold scenario of C1 indeed
carries no `rules_fallback:` source. -/
theorem claim9_witness :
    List.isPrefixOf (gs "rules_fallback:")
      (analyzerAnalyze true engEx sanEx aiFailEx (gs "boom")).source = false :=
  (claim9_no_fallback_source true engEx sanEx aiFailEx (gs "boom")).1

/-- C10: the truncated flag is computed from the raw input's length
before trimming while the cleaned text is trimmed first, then truncated,
then masked; consequently an input exceeding the ceiling only through
surrounding whitespace (here `ab` followed by two spaces, ceiling 3) is
reported truncated although the cleaned text is exactly the trimmed
input with no non-whitespace content removed. -/
theorem claim10_truncated_flag (san : Sanitizer) (x : GoStr) :
    (sanitizeWithStats san x).2.truncated = decide (san.maxSize < x.length) ∧
    (sanitizeWithStats san x).1 =
      maskSecrets san (goTruncate san.maxSize (trimSpace x)) ∧
    ((gs "ab  ").length > sanSmall.maxSize ∧
      (sanitizeWithStats sanSmall (gs "ab  ")).2.truncated = true ∧
      (sanitizeWithStats sanSmall (gs "ab  ")).1 = trimSpace (gs "ab  ") ∧
      (trimSpace (gs "ab  ")).length ≤ sanSmall.maxSize) :=
  ⟨rfl, rfl, by decide⟩

end AIDevOps
